import Mathlib

/-!
Verification of the relay subsystem in src/overwatch/src/services/relay.rs.

The Rust module is embedded shallowly: async operations are modelled at
their resolution point, with the eventual oneshot reply passed in as an
explicit parameter, and the commands dispatched to the coordinator recorded
in an explicit effect trace. Machinery from outside the relay module
(tokio mpsc/oneshot channels, std::any::TypeId, OverwatchHandle) is
modelled by its observable behaviour at the relay boundary.
-/

namespace Overwatch

/-- Model of ServiceId (a static string identifier). -/
abbrev ServiceId := String

/-- Model of the debug rendering of std::any::TypeId, as produced by
the source with a format call on the type id of the erased payload. -/
abbrev TypeIdRepr := String

/-- Model of tokio::sync::oneshot::error::RecvError, a unit struct that
signals the oneshot sender was dropped without sending. -/
inductive RecvError where
  | mk
deriving Repr, DecidableEq

/-- RelayError from relay.rs, variant for variant. The Receiver variant
carries the opaque debug cause; at the single site that builds it the cause
is the oneshot receive error, so it is modelled as carrying RecvError. -/
inductive RelayError where
  | InvalidRequest («to» : ServiceId)
  | Send
  | AlreadyConnected
  | Disconnected
  | Unavailable (service_id : ServiceId)
  | InvalidMessage (type_id : TypeIdRepr) (service_id : ServiceId)
  | Receiver (cause : RecvError)
deriving Repr, DecidableEq

/-- The shared state of one bounded mpsc queue, as seen from either end:
the buffered messages in FIFO order, the fixed capacity, whether the
consumer end is still alive, and how many producer ends are alive. -/
structure Chan (M : Type) where
  buffer : List M
  capacity : Nat
  receiverAlive : Bool
  senderCount : Nat
deriving Repr, DecidableEq

/-- Model of tokio::sync::mpsc::error::SendError, which hands the
undelivered message back to the caller. -/
structure SendError (M : Type) where
  msg : M
deriving Repr, DecidableEq

/-- Resolved semantics of tokio Sender send: if the consumer end was
dropped the send fails and returns the message, leaving the queue as it
was; otherwise the message is enqueued at the back (a full queue suspends
the sender until space frees, so at resolution the enqueue has happened). -/
def Chan.send {M : Type} (c : Chan M) (m : M) : Except (SendError M) Unit × Chan M :=
  if c.receiverAlive then
    (Except.ok (), { c with buffer := c.buffer ++ [m] })
  else
    (Except.error ⟨m⟩, c)

/-- One step of tokio Receiver recv: the next buffered message in FIFO
order if any; the end-of-stream indication (inner none) once the queue is
empty and every producer end has been dropped; otherwise the call would
suspend (outer none). -/
def Chan.recvStep {M : Type} (c : Chan M) : Option (Option M × Chan M) :=
  match c.buffer with
  | m :: rest => some (some m, { c with buffer := rest })
  | [] => if c.senderCount = 0 then some (none, c) else none

/-- InboundRelay from relay.rs: the channel receiver of a relay connection
plus the placeholder stats field. -/
structure InboundRelay (M : Type) where
  receiver : Chan M
  stats : Unit := ()
deriving Repr, DecidableEq

/-- OutboundRelay from relay.rs: the channel sender of a relay connection
plus the placeholder stats field. -/
structure OutboundRelay (M : Type) where
  sender : Chan M
  stats : Unit := ()
deriving Repr, DecidableEq

/-- The relay channel builder from relay.rs: creates one linked bounded
queue and returns its consumer and producer ends. -/
def relay (M : Type) (buffer_size : Nat) : InboundRelay M × OutboundRelay M :=
  let c : Chan M := { buffer := [], capacity := buffer_size,
                      receiverAlive := true, senderCount := 1 }
  ({ receiver := c }, { sender := c })

/-- InboundRelay recv, delegating to the channel receiver. -/
def InboundRelay.recv {M : Type} (r : InboundRelay M) : Option (Option M × InboundRelay M) :=
  match r.receiver.recvStep with
  | some (om, c) => some (om, { r with receiver := c })
  | none => none

/-- Iterate recv up to n times, collecting the observed results (each
either a message or the end-of-stream indication) and stopping early only
if a call would suspend. -/
def InboundRelay.recvN {M : Type} (r : InboundRelay M) : Nat → List (Option M) × InboundRelay M
  | 0 => ([], r)
  | n + 1 =>
    match r.recv with
    | none => ([], r)
    | some (om, r1) =>
      let p := r1.recvN n
      (om :: p.1, p.2)

/-- OutboundRelay send from relay.rs: delegates to the channel sender and
maps a failure to the Send error paired with the undelivered message. -/
def OutboundRelay.send {M : Type} (o : OutboundRelay M) (m : M) :
    Except (RelayError × M) Unit × OutboundRelay M :=
  match o.sender.send m with
  | (Except.ok _, c) => (Except.ok (), { o with sender := c })
  | (Except.error e, c) => (Except.error (RelayError.Send, e.msg), { o with sender := c })

/-- The type id of OutboundRelay itself, reported when an erased payload
that does hold the expected producer end is asked for its type identity. -/
def outboundRelayTypeId : TypeIdRepr := "OutboundRelay"

/-- Model of AnyMessage (a boxed dyn Any payload) relative to the expected
downcast target OutboundRelay of message type M: the payload either is a
producer end of that exact type, or is a value of some other runtime type,
remembered by its type identity. -/
inductive AnyMessage (M : Type) where
  | outbound (chan : OutboundRelay M)
  | other (tid : TypeIdRepr)
deriving Repr, DecidableEq

/-- The runtime type identity of the value held inside the erased box:
what dereferencing the box before asking for the type id would report.
Note that the mismatch branch of the source does not consult this; see
boxAnyTypeId. -/
def AnyMessage.type_id {M : Type} : AnyMessage M → TypeIdRepr
  | .outbound _ => outboundRelayTypeId
  | .other tid => tid

/-- The debug rendering of the type id of the erased box type itself
(Box dyn Any Send). The mismatch branch of the source calls type-id
through the box value; Rust method resolution selects the blanket Any
implementation for the box type before dereferencing to the payload, so
the reported identity is this one constant for every mismatched payload,
independent of what the box holds. -/
def boxAnyTypeId : TypeIdRepr := "TypeId(Box<dyn Any + Send>)"

/-- Checked downcast of the erased payload to OutboundRelay of M, the
Box dyn Any downcast of the source: succeeds exactly on a payload of that
type, and on mismatch returns the intact original box. -/
def AnyMessage.downcast {M : Type} : AnyMessage M → Except (AnyMessage M) (OutboundRelay M)
  | .outbound chan => Except.ok chan
  | .other tid => Except.error (.other tid)

/-- RelayResult from relay.rs: the reply the coordinator sends on the
oneshot channel. -/
abbrev RelayResult (M : Type) := Except RelayError (AnyMessage M)

/-- Model of OverwatchHandle, defined outside the relay module: the relay
only stores it, clones it, and dispatches commands through it, so it is an
opaque token here; dispatched commands appear in the effect trace. -/
structure OverwatchHandle where
  token : Nat
deriving Repr, DecidableEq

/-- The ServiceCore data the relay uses from its type parameter S: the
message type and the static service identifier. -/
structure ServiceCore where
  Message : Type
  SERVICE_ID : ServiceId

/-- RelayState from relay.rs. -/
inductive RelayState (M : Type) where
  | Disconnected
  | Connected (outbound : OutboundRelay M)

/-- Relay from relay.rs: the connection state plus the shared coordinator
handle. -/
structure Relay (S : ServiceCore) where
  state : RelayState S.Message
  overwatch_handle : OverwatchHandle

/-- The externally observable operations a relay call performs: a relay
request command dispatched to the coordinator through the stored handle
(request-relay carries the service id; the oneshot sender it also carries
is represented by the response parameter of connect), or an enqueue
attempt on the connected queue. -/
inductive Effect (M : Type) where
  | relayRequest (service_id : ServiceId)
  | queueSend (message : M)
deriving Repr, DecidableEq

/-- Relay new from relay.rs: constructs in the Disconnected state. -/
def Relay.new (S : ServiceCore) (overwatch_handle : OverwatchHandle) : Relay S :=
  { state := RelayState.Disconnected, overwatch_handle }

/-- handle-relay-response from relay.rs: inspect the awaited oneshot
result; on a successful reply try the downcast, connecting on a match and
reporting InvalidMessage on a mismatch; pass a coordinator error through
unchanged; wrap a failed oneshot receive in the Receiver variant. The
type-id string in the mismatch branch comes from calling type-id through
the returned box itself, which yields the constant box type identity
(boxAnyTypeId) for every payload, not the identity of the payload
inside. -/
def Relay.handle_relay_response {S : ServiceCore} (r : Relay S)
    (response : Except RecvError (RelayResult S.Message)) :
    Except RelayError Unit × Relay S :=
  match response with
  | Except.ok (Except.ok message) =>
    match message.downcast with
    | Except.ok channel => (Except.ok (), { r with state := RelayState.Connected channel })
    | Except.error _m =>
      (Except.error (RelayError.InvalidMessage boxAnyTypeId S.SERVICE_ID), r)
  | Except.ok (Except.error e) => (Except.error e, r)
  | Except.error e => (Except.error (RelayError.Receiver e), r)

/-- Relay connect from relay.rs. When Disconnected it dispatches the relay
request command (request-relay) and handles the eventual oneshot response;
otherwise it fails with AlreadyConnected, dispatching nothing. The third
component is the trace of effects performed. -/
def Relay.connect {S : ServiceCore} (r : Relay S)
    (response : Except RecvError (RelayResult S.Message)) :
    Except RelayError Unit × Relay S × List (Effect S.Message) :=
  match r.state with
  | RelayState.Disconnected =>
    let p := r.handle_relay_response response
    (p.1, p.2, [Effect.relayRequest S.SERVICE_ID])
  | RelayState.Connected _ => (Except.error RelayError.AlreadyConnected, r, [])

/-- Relay disconnect from relay.rs: unconditionally resets the state and
succeeds. -/
def Relay.disconnect {S : ServiceCore} (r : Relay S) : Except RelayError Unit × Relay S :=
  (Except.ok (), { r with state := RelayState.Disconnected })

/-- Relay send from relay.rs: when Connected, forward the message to the
stored producer end, discarding the undelivered message on failure and
keeping only the error; when Disconnected, fail immediately with
Disconnected and perform no queue operation. The third component is the
trace of effects performed. -/
def Relay.send {S : ServiceCore} (r : Relay S) (message : S.Message) :
    Except RelayError Unit × Relay S × List (Effect S.Message) :=
  match r.state with
  | RelayState.Connected outbound_relay =>
    match outbound_relay.send message with
    | (Except.ok _, o) =>
      (Except.ok (), { r with state := RelayState.Connected o },
        [Effect.queueSend message])
    | (Except.error em, o) =>
      (Except.error em.1, { r with state := RelayState.Connected o },
        [Effect.queueSend message])
  | RelayState.Disconnected => (Except.error RelayError.Disconnected, r, [])

/-- A concrete sample service used to exercise the relay operations. -/
abbrev pingService : ServiceCore := ServiceCore.mk Nat "ping"

/-- A concrete relay for the sample service in the Disconnected state. -/
def r0 : Relay pingService :=
  { state := RelayState.Disconnected, overwatch_handle := ⟨0⟩ }

/-- A concrete producer end whose consumer end is still alive. -/
def liveOutbound : OutboundRelay Nat :=
  { sender := { buffer := [], capacity := 4, receiverAlive := true, senderCount := 1 } }

/-- A concrete producer end whose consumer end has been dropped. -/
def deadOutbound : OutboundRelay Nat :=
  { sender := { buffer := [], capacity := 4, receiverAlive := false, senderCount := 1 } }

/-- A concrete connected relay holding the live producer end. -/
def rLive : Relay pingService :=
  { state := RelayState.Connected liveOutbound, overwatch_handle := ⟨0⟩ }

/-- A concrete connected relay holding the dropped-consumer producer end. -/
def rDead : Relay pingService :=
  { state := RelayState.Connected deadOutbound, overwatch_handle := ⟨0⟩ }

/-- A concrete consumer end whose producer ends have all been dropped,
with three buffered messages. -/
def closedInbound : InboundRelay Nat :=
  { receiver := { buffer := [3, 1, 4], capacity := 8, receiverAlive := true, senderCount := 0 } }

/-- Claim C1, evaluated at the failing input: on a Disconnected relay, a
successful coordinator reply whose erased payload (of inner runtime type
tid7) does not downcast makes connect return InvalidMessage carrying the
constant type identity of the erased box type itself, which is not the
actual runtime type identity of the payload, together with the static
service identifier; the relay is left unchanged, hence still
Disconnected. -/
theorem connect_mismatch_reports_box_type_id :
    (r0.connect (Except.ok (Except.ok (AnyMessage.other "tid7")))).1
      = Except.error (RelayError.InvalidMessage boxAnyTypeId "ping")
    ∧ (r0.connect (Except.ok (Except.ok (AnyMessage.other "tid7")))).2.1 = r0
    ∧ boxAnyTypeId ≠ (AnyMessage.other (M := Nat) "tid7").type_id :=
  ⟨rfl, rfl, by decide⟩

/-- Claim C2: on a Disconnected relay, a coordinator reply carrying a
RelayError is propagated by connect unchanged, and a failed oneshot
receive (sender dropped without answering) is returned as Receiver
wrapping the cause; in both cases the relay is unchanged, hence still
Disconnected. -/
theorem connect_error_passthrough {S : ServiceCore} (r : Relay S)
    (e : RelayError) (c : RecvError)
    (hstate : r.state = RelayState.Disconnected) :
    ((r.connect (Except.ok (Except.error e))).1 = Except.error e
      ∧ (r.connect (Except.ok (Except.error e))).2.1 = r)
    ∧ ((r.connect (Except.error c)).1 = Except.error (RelayError.Receiver c)
      ∧ (r.connect (Except.error c)).2.1 = r) := by
  refine ⟨⟨?_, ?_⟩, ⟨?_, ?_⟩⟩ <;>
    simp [Relay.connect, hstate, Relay.handle_relay_response]

/-- Witness for C2 at a concrete relay, error and receive failure. -/
theorem connect_error_passthrough_witness :
    r0.state = RelayState.Disconnected
    ∧ (((r0.connect (Except.ok (Except.error (RelayError.Unavailable "other")))).1
          = Except.error (RelayError.Unavailable "other")
        ∧ (r0.connect (Except.ok (Except.error (RelayError.Unavailable "other")))).2.1 = r0)
      ∧ ((r0.connect (Except.error RecvError.mk)).1
          = Except.error (RelayError.Receiver RecvError.mk)
        ∧ (r0.connect (Except.error RecvError.mk)).2.1 = r0)) :=
  ⟨rfl, connect_error_passthrough r0 (RelayError.Unavailable "other") RecvError.mk rfl⟩

/-- Claim C3: connect on a Connected relay fails with AlreadyConnected,
dispatches no relay-request command (empty effect trace), and leaves the
relay, including its stored producer end, unchanged. -/
theorem connect_already_connected {S : ServiceCore} (r : Relay S)
    (o : OutboundRelay S.Message)
    (response : Except RecvError (RelayResult S.Message))
    (hstate : r.state = RelayState.Connected o) :
    (r.connect response).1 = Except.error RelayError.AlreadyConnected
    ∧ (r.connect response).2.1 = r
    ∧ (r.connect response).2.2 = [] := by
  refine ⟨?_, ?_, ?_⟩ <;> simp [Relay.connect, hstate]

/-- Witness for C3 at a concrete connected relay. -/
theorem connect_already_connected_witness :
    rLive.state = RelayState.Connected liveOutbound
    ∧ ((rLive.connect (Except.error RecvError.mk)).1
        = Except.error RelayError.AlreadyConnected
      ∧ (rLive.connect (Except.error RecvError.mk)).2.1 = rLive
      ∧ (rLive.connect (Except.error RecvError.mk)).2.2 = []) :=
  ⟨rfl, connect_already_connected rLive liveOutbound (Except.error RecvError.mk) rfl⟩

/-- Claim C4: send on a Connected relay whose queue consumer end was
dropped returns the bare Send error, which carries no message (the
undelivered message is discarded at this layer), and leaves the relay
unchanged, hence still Connected with the same producer end. -/
theorem send_consumer_dropped {S : ServiceCore} (r : Relay S)
    (o : OutboundRelay S.Message) (message : S.Message)
    (hstate : r.state = RelayState.Connected o)
    (hdead : o.sender.receiverAlive = false) :
    (r.send message).1 = Except.error RelayError.Send
    ∧ (r.send message).2.1 = r := by
  obtain ⟨st, hdl⟩ := r
  have hst : st = RelayState.Connected o := hstate
  subst hst
  obtain ⟨ch, u⟩ := o
  have hd : ch.receiverAlive = false := hdead
  refine ⟨?_, ?_⟩ <;> simp [Relay.send, OutboundRelay.send, Chan.send, hd]

/-- Witness for C4 at a concrete relay whose consumer end was dropped. -/
theorem send_consumer_dropped_witness :
    (rDead.state = RelayState.Connected deadOutbound
      ∧ deadOutbound.sender.receiverAlive = false)
    ∧ ((rDead.send 5).1 = Except.error RelayError.Send
      ∧ (rDead.send 5).2.1 = rDead) :=
  ⟨⟨rfl, rfl⟩, send_consumer_dropped rDead deadOutbound 5 rfl rfl⟩

/-- Claim C5: the raw channel primitive send on a producer end whose
consumer end was dropped returns the Send error paired with the very
message that was passed in, and leaves the producer end unchanged. -/
theorem outbound_send_returns_message {M : Type} (o : OutboundRelay M) (message : M)
    (hdead : o.sender.receiverAlive = false) :
    (o.send message).1 = Except.error (RelayError.Send, message)
    ∧ (o.send message).2 = o := by
  obtain ⟨ch, u⟩ := o
  have hd : ch.receiverAlive = false := hdead
  refine ⟨?_, ?_⟩ <;> simp [OutboundRelay.send, Chan.send, hd]

/-- Witness for C5 at a concrete producer end and message. -/
theorem outbound_send_returns_message_witness :
    deadOutbound.sender.receiverAlive = false
    ∧ ((deadOutbound.send 9).1 = Except.error (RelayError.Send, 9)
      ∧ (deadOutbound.send 9).2 = deadOutbound) :=
  ⟨rfl, outbound_send_returns_message deadOutbound 9 rfl⟩

/-- Claim C6: send on a Disconnected relay fails immediately with
Disconnected, performs no queue operation and no relay request (empty
effect trace), and leaves the relay unchanged, hence still
Disconnected. -/
theorem send_disconnected_noop {S : ServiceCore} (r : Relay S) (message : S.Message)
    (hstate : r.state = RelayState.Disconnected) :
    (r.send message).1 = Except.error RelayError.Disconnected
    ∧ (r.send message).2.1 = r
    ∧ (r.send message).2.2 = [] := by
  refine ⟨?_, ?_, ?_⟩ <;> simp [Relay.send, hstate]

/-- Witness for C6 at a concrete disconnected relay. -/
theorem send_disconnected_noop_witness :
    r0.state = RelayState.Disconnected
    ∧ ((r0.send 5).1 = Except.error RelayError.Disconnected
      ∧ (r0.send 5).2.1 = r0
      ∧ (r0.send 5).2.2 = []) :=
  ⟨rfl, send_disconnected_noop r0 5 rfl⟩

/-- Claim C7: disconnect always succeeds and leaves the relay in the
Disconnected state, and it is idempotent: running it a second time on the
resulting relay yields exactly the same result and final relay. -/
theorem disconnect_idempotent {S : ServiceCore} (r : Relay S) :
    (r.disconnect).1 = Except.ok ()
    ∧ (r.disconnect).2.state = RelayState.Disconnected
    ∧ ((r.disconnect).2).disconnect = r.disconnect :=
  ⟨rfl, rfl, rfl⟩

/-- Drain lemma: iterating recv on a consumer end with no live producer
ends, one step past the buffer length, observes the whole buffer in FIFO
order followed by the end-of-stream indication. -/
theorem recvN_closed_drain {M : Type} (l : List M) (cap : Nat) (alive : Bool) :
    (InboundRelay.recvN ⟨⟨l, cap, alive, 0⟩, ()⟩ (l.length + 1)).1
      = l.map some ++ [none] := by
  induction l with
  | nil => simp [InboundRelay.recvN, InboundRelay.recv, Chan.recvStep]
  | cons m rest ih =>
    simp [InboundRelay.recvN, InboundRelay.recv, Chan.recvStep] at ih ⊢
    exact ih

/-- Claim C8: on a channel whose last producer end has been dropped,
repeated recv returns exactly the buffered messages in enqueue order and
then the end-of-stream indication; nothing is reordered or dropped. -/
theorem recv_drains_in_order {M : Type} (r : InboundRelay M)
    (hclosed : r.receiver.senderCount = 0) :
    (r.recvN (r.receiver.buffer.length + 1)).1
      = r.receiver.buffer.map some ++ [none] := by
  obtain ⟨⟨l, cap, alive, s⟩, u⟩ := r
  have hs : s = 0 := hclosed
  subst hs
  exact recvN_closed_drain l cap alive

/-- Witness for C8 at a concrete closed three-message channel. -/
theorem recv_drains_in_order_witness :
    closedInbound.receiver.senderCount = 0
    ∧ (closedInbound.recvN 4).1 = [some 3, some 1, some 4, none] :=
  ⟨rfl, recv_drains_in_order closedInbound rfl⟩

/-- Claim C9: connect, disconnect and send never change the stored
coordinator handle of the relay; only the state field is mutated. -/
theorem relay_ops_preserve_handle {S : ServiceCore} (r : Relay S)
    (response : Except RecvError (RelayResult S.Message)) (message : S.Message) :
    (r.connect response).2.1.overwatch_handle = r.overwatch_handle
    ∧ (r.disconnect).2.overwatch_handle = r.overwatch_handle
    ∧ (r.send message).2.1.overwatch_handle = r.overwatch_handle := by
  obtain ⟨st, hdl⟩ := r
  refine ⟨?_, rfl, ?_⟩
  · cases st with
    | Connected o => rfl
    | Disconnected =>
      cases response with
      | error c => rfl
      | ok rr =>
        cases rr with
        | error e => rfl
        | ok payload => cases payload <;> rfl
  · cases st with
    | Disconnected => rfl
    | Connected o =>
      simp only [Relay.send, OutboundRelay.send, Chan.send]
      cases hb : o.sender.receiverAlive <;> simp [hb]

/-- Claim C10: for a relay in any state, send yields success, the Send
error, or the Disconnected error, and never any other RelayError
variant. -/
theorem send_result_taxonomy {S : ServiceCore} (r : Relay S) (message : S.Message) :
    (r.send message).1 = Except.ok ()
    ∨ (r.send message).1 = Except.error RelayError.Send
    ∨ (r.send message).1 = Except.error RelayError.Disconnected := by
  obtain ⟨st, hdl⟩ := r
  cases st with
  | Disconnected => right; right; rfl
  | Connected o =>
    cases hb : o.sender.receiverAlive with
    | true => left; simp [Relay.send, OutboundRelay.send, Chan.send, hb]
    | false => right; left; simp [Relay.send, OutboundRelay.send, Chan.send, hb]

end Overwatch
